import Mathlib

/-!
Verification of the vindwifing firmware core: the PM1006 frame decoder,
the sampling-cycle aggregator, the Homie topic-entity model and the
lazily-reconnecting publisher, shallowly embedded from `main.py` and
`homie.py`.
-/

/- ===================== Frame decoder (main.py, VindriktningReader.__decode_sensor_data) ===================== -/

/-- Errors raised while decoding sensor data. The two frame errors mirror the
two `ValueError`s raised in `__decode_sensor_data` (each message carries the
received byte); `emptyInput` is the division-by-zero failure when the buffer
holds zero complete frames. -/
inductive DecodeError where
  | frameTypeError (received : Nat)
  | frameLengthError (received : Nat)
  | emptyInput
deriving DecidableEq, Repr

/-- Whether a decode error is one of the two frame errors. -/
def DecodeError.isFrame : DecodeError → Bool
  | DecodeError.frameTypeError _ => true
  | DecodeError.frameLengthError _ => true
  | DecodeError.emptyInput => false

/-- The per-frame value of frame `i`: `data[offset+5] * 256 + data[offset+6]`. -/
def frameValue (data : List Nat) (i : Nat) : Nat :=
  data.getD (i * 20 + 5) 0 * 256 + data.getD (i * 20 + 6) 0

/-- One iteration of the decode loop body: validate frame `i` of `data` and
return its value, exactly as `__decode_sensor_data` checks the frame type
byte and the declared data length before reading the two value bytes. -/
def checkFrame (data : List Nat) (i : Nat) : Except DecodeError Nat :=
  let offset := i * 20
  let frame_type := data.getD offset 0
  if frame_type ≠ 0x16 then
    Except.error (DecodeError.frameTypeError frame_type)
  else
    let data_length := data.getD (offset + 1) 0
    if data_length ≠ 17 then
      Except.error (DecodeError.frameLengthError data_length)
    else
      Except.ok (frameValue data i)

/-- The decode loop: sum the values of the frames with the given indices,
stopping at the first invalid frame, as the `for i in range(nframes)` loop does. -/
def sumFrames (data : List Nat) : List Nat → Except DecodeError Nat
  | [] => Except.ok 0
  | i :: rest =>
    match checkFrame data i with
    | Except.error e => Except.error e
    | Except.ok v =>
      match sumFrames data rest with
      | Except.error e => Except.error e
      | Except.ok s => Except.ok (v + s)

/-- `__decode_sensor_data`: `nframes = int(len(data) / 20)`, validate and sum
every complete frame, then return `int(sum_values / nframes)` (truncated
average); with zero complete frames the final division fails. -/
def decode_sensor_data (data : List Nat) : Except DecodeError Nat :=
  let nframes := data.length / 20
  match sumFrames data (List.range nframes) with
  | Except.error e => Except.error e
  | Except.ok sum_values =>
    if nframes = 0 then Except.error DecodeError.emptyInput
    else Except.ok (sum_values / nframes)

/-- Frame `i` of `data` is malformed: wrong type byte or wrong length byte. -/
def frameBad (data : List Nat) (i : Nat) : Prop :=
  data.getD (i * 20) 0 ≠ 0x16 ∨ data.getD (i * 20 + 1) 0 ≠ 17

instance (data : List Nat) (i : Nat) : Decidable (frameBad data i) := by
  unfold frameBad; infer_instance

/- ===================== Cycle aggregator (main.py, VindriktningReader) ===================== -/

/-- One buffered sensor sample, `{"timestamp": ..., "pm2_5": ...}`. -/
structure Sample where
  timestamp : Int
  pm2_5 : Int
deriving DecidableEq, Repr

/-- `__CYCLE_SAMPLES`: the number of samples in a sensor sampling cycle. -/
def CYCLE_SAMPLES : Nat := 7

/-- `__CYCLE_TIMEOUT`: seconds after which a sampling cycle is considered finished. -/
def CYCLE_TIMEOUT : Int := 4

/-- `__handle_sensor_data` after a successful decode: buffer the sample only
when `value >= 0 and value <= 1000`, otherwise leave the buffer untouched. -/
def handle_sensor_data (buffer : List Sample) (timestamp : Int) (value : Int) : List Sample :=
  if 0 ≤ value ∧ value ≤ 1000 then buffer ++ [⟨timestamp, value⟩] else buffer

/-- Round half to even, as Python's builtin `round` rounds. -/
def roundHalfEven (q : ℚ) : ℤ :=
  if q - Int.floor q < 1 / 2 then Int.floor q
  else if q - Int.floor q > 1 / 2 then Int.floor q + 1
  else if Int.floor q % 2 = 0 then Int.floor q else Int.floor q + 1

/-- Python's `round(q, 1)`: round to one decimal digit, half to even. -/
def pyRound1 (q : ℚ) : ℚ := (roundHalfEven (q * 10) : ℚ) / 10

/-- Sum of the buffered `pm2_5` values, as exact rationals. -/
def bufferSum (buffer : List Sample) : ℚ :=
  (buffer.map (fun s => (s.pm2_5 : ℚ))).sum

/-- Outcome of the `publisher.publish` call made during a cycle flush. -/
inductive PublishOutcome where
  | ok
  | raise
deriving DecidableEq, Repr

/-- The aggregated value and timestamp reported when a cycle is flushed. -/
structure CycleResult where
  value : ℚ
  timestamp : Int
deriving DecidableEq, Repr

/-- `__publish_if_cycle_ended`: when the buffer is non-empty and either
`CYCLE_SAMPLES` samples are buffered or more than `CYCLE_TIMEOUT` seconds
passed since the last sample, publish `round(sum / nsamples, 1)` stamped with
the last sample time and clear the buffer; `buffer.clear()` runs only after
`publish` returns, so a raising publish leaves the buffer intact and
propagates the exception (third component). -/
def publish_if_cycle_ended (buffer : List Sample) (current_time : Int)
    (pub : PublishOutcome) : List Sample × Option CycleResult × Bool :=
  match buffer.getLast? with
  | none => (buffer, none, false)
  | some last =>
    let nsamples := buffer.length
    if nsamples ≥ CYCLE_SAMPLES ∨ current_time - last.timestamp > CYCLE_TIMEOUT then
      match pub with
      | PublishOutcome.ok =>
        ([], some ⟨pyRound1 (bufferSum buffer / (nsamples : ℚ)), last.timestamp⟩, false)
      | PublishOutcome.raise => (buffer, none, true)
    else (buffer, none, false)

/- ===================== Homie topic-entity model (homie.py) ===================== -/

/-- `HomieThing.parent` setter: the topic name is the parent's topic name,
a slash and the thing id, or just the thing id when there is no parent. -/
def topic_name (parentTopic : Option String) (thing_id : String) : String :=
  match parentTopic with
  | some p => p ++ "/" ++ thing_id
  | none => thing_id

/-- `HomieThing.set_attribute`: publish `value` to `<topic>/<name>`. -/
def set_attribute (topic name value : String) : String × String :=
  (topic ++ "/" ++ name, value)

/-- `HomieThing.set_value`: publish `value` directly to the thing's topic. -/
def set_value (topic value : String) : String × String :=
  (topic, value)

/-- The topic of the entity reached from an entity with topic `t` by following
the given child ids, each construction applying the parent-setter rule. -/
def entity_topic : String → List String → String
  | t, [] => t
  | t, i :: rest => entity_topic (topic_name (some t) i) rest

/-- Modelled from the spec: the slash-joined concatenation of a non-empty
sequence of ids, as the path invariant describes it. -/
def slashJoin : List String → String
  | [] => ""
  | [x] => x
  | x :: y :: rest => x ++ "/" ++ slashJoin (y :: rest)

/-- `",".join(...)` over the string forms (thing ids) of a list. -/
def commaJoin : List String → String
  | [] => ""
  | [x] => x
  | x :: y :: rest => x ++ "," ++ commaJoin (y :: rest)

/-- A Homie `Property`: id, name, data type and unit. -/
structure PropertyT where
  thing_id : String
  name : String
  data_type : String
  unit : String
deriving DecidableEq, Repr

/-- A Homie `Node`: id, name, type and its properties in insertion order. -/
structure NodeT where
  thing_id : String
  name : String
  thing_type : String
  properties : List PropertyT
deriving DecidableEq, Repr

/-- A Homie `Device`: id, name, its nodes in insertion order and extensions. -/
structure DeviceT where
  thing_id : String
  name : String
  nodes : List NodeT
  extensions : List String
deriving DecidableEq, Repr

/-- `DeviceState.INIT`. -/
def DeviceState.INIT : String := "init"

/-- `DeviceState.READY`. -/
def DeviceState.READY : String := "ready"

/-- `Property.init`: publish the property's `$name`, `$datatype`, `$unit`,
`$retained` and `$settable` attributes, in that order. -/
def PropertyT.init (ptopic : String) (p : PropertyT) : List (String × String) :=
  [set_attribute ptopic "$name" p.name,
   set_attribute ptopic "$datatype" p.data_type,
   set_attribute ptopic "$unit" p.unit,
   set_attribute ptopic "$retained" "true",
   set_attribute ptopic "$settable" "false"]

/-- `Node.init`: publish `$name`, `$type` and `$properties`, then initialise
every child property in insertion order. -/
def NodeT.init (ntopic : String) (n : NodeT) : List (String × String) :=
  [set_attribute ntopic "$name" n.name,
   set_attribute ntopic "$type" n.thing_type,
   set_attribute ntopic "$properties" (commaJoin (n.properties.map PropertyT.thing_id))]
  ++ (n.properties.map (fun p => PropertyT.init (topic_name (some ntopic) p.thing_id) p)).flatten

/-- `Device.init`: publish `$state=init`, `$homie`, `$name`, `$nodes` and
`$extensions`, then initialise every child node in insertion order. -/
def DeviceT.init (dtopic : String) (d : DeviceT) : List (String × String) :=
  [set_attribute dtopic "$state" DeviceState.INIT,
   set_attribute dtopic "$homie" "3.0.0",
   set_attribute dtopic "$name" d.name,
   set_attribute dtopic "$nodes" (commaJoin (d.nodes.map NodeT.thing_id)),
   set_attribute dtopic "$extensions" (commaJoin d.extensions)]
  ++ (d.nodes.map (fun nd => NodeT.init (topic_name (some dtopic) nd.thing_id) nd)).flatten

/-- The `Device.state` setter: on `INIT` run the full announcement, on any
other value publish `$state` with the literal `READY`; either way the stored
state becomes `new_state`. Returns the published (topic, value) pairs and the
stored state. -/
def DeviceT.set_state (dtopic : String) (d : DeviceT) (new_state : String) :
    List (String × String) × String :=
  if new_state = DeviceState.INIT then (DeviceT.init dtopic d, new_state)
  else ([set_attribute dtopic "$state" DeviceState.READY], new_state)

/-- Modelled from the spec: the attributes a property announcement publishes,
each topic written as `path + "/" + name` per the claim's enumeration. -/
def specPropertyAttrs (ptopic : String) (p : PropertyT) : List (String × String) :=
  [(ptopic ++ "/" ++ "$name", p.name),
   (ptopic ++ "/" ++ "$datatype", p.data_type),
   (ptopic ++ "/" ++ "$unit", p.unit),
   (ptopic ++ "/" ++ "$retained", "true"),
   (ptopic ++ "/" ++ "$settable", "false")]

/-- Modelled from the spec: a node's `$name`, `$type`, `$properties` followed
by each of its properties' attributes, in insertion order. -/
def specNodeAttrs (ntopic : String) (n : NodeT) : List (String × String) :=
  [(ntopic ++ "/" ++ "$name", n.name),
   (ntopic ++ "/" ++ "$type", n.thing_type),
   (ntopic ++ "/" ++ "$properties", commaJoin (n.properties.map PropertyT.thing_id))]
  ++ (n.properties.map (fun p => specPropertyAttrs (ntopic ++ "/" ++ p.thing_id) p)).flatten

/-- Modelled from the spec: the full announcement — `$state=init`,
`$homie=3.0.0`, `$name`, `$nodes`, `$extensions`, then every descendant's
attributes in declared order, each exactly once. -/
def specAnnouncement (dtopic : String) (d : DeviceT) : List (String × String) :=
  [(dtopic ++ "/" ++ "$state", "init"),
   (dtopic ++ "/" ++ "$homie", "3.0.0"),
   (dtopic ++ "/" ++ "$name", d.name),
   (dtopic ++ "/" ++ "$nodes", commaJoin (d.nodes.map NodeT.thing_id)),
   (dtopic ++ "/" ++ "$extensions", commaJoin d.extensions)]
  ++ (d.nodes.map (fun nd => specNodeAttrs (dtopic ++ "/" ++ nd.thing_id) nd)).flatten

/- ===================== Publisher (main.py, Publisher) ===================== -/

/-- The outcome the broker environment gives to one `__connect` attempt. -/
inductive ConnectOutcome where
  | success (prop : String)
  | failure
deriving DecidableEq, Repr

/-- `Publisher.__connect`: on success the property reference is set, on a
`ConnectionError` it stays `None` (it is reset to `None` before the attempt). -/
def connect (outcome : ConnectOutcome) : Option String :=
  match outcome with
  | ConnectOutcome.success p => some p
  | ConnectOutcome.failure => none

/-- The publisher's only persistent state: its `__property` reference. -/
structure PublisherState where
  property : Option String
deriving DecidableEq, Repr

/-- What one `Publisher.publish` call did: how many reconnect sequences it
attempted, what message it published via `set_value` (if any), and whether it
raised a `ConnectionError` to its caller. -/
structure PublishResult where
  connectAttempts : Nat
  published : Option String
  connectionError : Bool
deriving DecidableEq, Repr

/-- `Publisher.publish`: if no property reference exists, run `__connect`
once, logging (not raising) its `ConnectionError`; then, if a property
reference exists, call `set_value`, wrapping any failure as a
`ConnectionError` raised to the caller. -/
def Publisher.publish (st : PublisherState) (message : String)
    (connectOutcome : ConnectOutcome) (setValueOk : Bool) :
    PublisherState × PublishResult :=
  let st2 := if st.property = none then PublisherState.mk (connect connectOutcome) else st
  let attempts := if st.property = none then 1 else 0
  match st2.property with
  | none => (st2, ⟨attempts, none, false⟩)
  | some _ =>
    if setValueOk then (st2, ⟨attempts, some message, false⟩)
    else (st2, ⟨attempts, none, true⟩)

/- ===================== Concrete buffers for witnesses and counterexamples ===================== -/

/-- A valid 20-byte frame whose value bytes encode 25. -/
def goodFrame : List Nat :=
  [0x16, 17, 0, 0, 0, 0, 25, 0, 0, 0, 0, 0, 0, 0, 0, 0, 0, 0, 0, 0]

/-- A valid 20-byte frame whose value bytes encode 35. -/
def goodFrame35 : List Nat :=
  [0x16, 17, 0, 0, 0, 0, 35, 0, 0, 0, 0, 0, 0, 0, 0, 0, 0, 0, 0, 0]

/-- A 20-byte frame with an invalid type byte `0x15`. -/
def badTypeFrame : List Nat :=
  [0x15, 17, 0, 0, 0, 0, 25, 0, 0, 0, 0, 0, 0, 0, 0, 0, 0, 0, 0, 0]

/-- A buffer whose only (bad) frame sits at offset 0. -/
def cexBuf1 : List Nat := badTypeFrame

/-- A buffer whose bad frame sits at offset 20, after a valid frame. -/
def cexBuf2 : List Nat := goodFrame ++ badTypeFrame

/-- A three-sample buffer with values 10, 20, 30 and last timestamp 2. -/
def buf3 : List Sample := [⟨0, 10⟩, ⟨1, 20⟩, ⟨2, 30⟩]

/-- The property built in `Publisher.__connect`. -/
def pmProperty : PropertyT :=
  ⟨"pm2_5", "Particulate Matter Concentration (PM2.5)", "float", "ug/m3"⟩

/-- The node built in `Publisher.__connect`, holding `pmProperty`. -/
def pm1006Node : NodeT :=
  ⟨"pm1006", "Cubic PM1006", "Air Quality Sensor", [pmProperty]⟩

/-- A concrete device tree like the one built in `Publisher.__connect`. -/
def vindDevice : DeviceT :=
  ⟨"vind", "VIND", [pm1006Node], []⟩

/- ===================== Decoder lemmas ===================== -/

lemma checkFrame_eq_ok (data : List Nat) (i : Nat)
    (h1 : data.getD (i * 20) 0 = 0x16) (h2 : data.getD (i * 20 + 1) 0 = 17) :
    checkFrame data i = Except.ok (frameValue data i) := by
  simp [checkFrame, h1, h2, -List.getD_eq_getElem?_getD]

lemma sumFrames_ok (data : List Nat) (is : List Nat)
    (h : ∀ i ∈ is, checkFrame data i = Except.ok (frameValue data i)) :
    sumFrames data is = Except.ok ((is.map (frameValue data)).sum) := by
  induction is with
  | nil => rfl
  | cons i rest ih =>
    have hi := h i (List.mem_cons_self i rest)
    have hrest : ∀ j ∈ rest, checkFrame data j = Except.ok (frameValue data j) :=
      fun j hj => h j (List.mem_cons_of_mem i hj)
    simp [sumFrames, hi, ih hrest]

lemma getD_take (l : List Nat) (m j : Nat) (h : j < m) :
    (l.take m).getD j 0 = l.getD j 0 := by
  induction l generalizing m j with
  | nil => simp
  | cons a t ih =>
    cases m with
    | zero => omega
    | succ m2 =>
      cases j with
      | zero => simp [List.take_succ_cons]
      | succ j2 =>
        simp only [List.take_succ_cons, List.getD_cons_succ]
        exact ih m2 j2 (by omega)

lemma checkFrame_take (data : List Nat) (n i : Nat) (hi : i < n) :
    checkFrame (data.take (20 * n)) i = checkFrame data i := by
  have h0 : i * 20 < 20 * n := by omega
  have h1 : i * 20 + 1 < 20 * n := by omega
  have h5 : i * 20 + 5 < 20 * n := by omega
  have h6 : i * 20 + 6 < 20 * n := by omega
  simp only [checkFrame, frameValue, getD_take _ _ _ h0, getD_take _ _ _ h1,
    getD_take _ _ _ h5, getD_take _ _ _ h6]

lemma sumFrames_congr (d1 d2 : List Nat) (is : List Nat)
    (h : ∀ i ∈ is, checkFrame d1 i = checkFrame d2 i) :
    sumFrames d1 is = sumFrames d2 is := by
  induction is with
  | nil => rfl
  | cons i rest ih =>
    have hi := h i (List.mem_cons_self i rest)
    have hrest := fun j hj => h j (List.mem_cons_of_mem i hj)
    simp only [sumFrames, hi, ih hrest]

lemma decode_take (data : List Nat) :
    decode_sensor_data (data.take (20 * (data.length / 20))) = decode_sensor_data data := by
  have hle : 20 * (data.length / 20) ≤ data.length := by
    have := Nat.div_mul_le_self data.length 20
    omega
  have hlen : (data.take (20 * (data.length / 20))).length = 20 * (data.length / 20) := by
    simp [List.length_take]
    omega
  have hn : (data.take (20 * (data.length / 20))).length / 20 = data.length / 20 := by
    rw [hlen]
    exact Nat.mul_div_cancel_left _ (by norm_num)
  have hcong : sumFrames (data.take (20 * (data.length / 20))) (List.range (data.length / 20))
      = sumFrames data (List.range (data.length / 20)) := by
    apply sumFrames_congr
    intro i hi
    exact checkFrame_take data _ i (List.mem_range.mp hi)
  simp only [decode_sensor_data, hn, hcong]

lemma checkFrame_error_isFrame (data : List Nat) (i : Nat) (e : DecodeError)
    (h : checkFrame data i = Except.error e) : e.isFrame = true := by
  by_cases h1 : data.getD (i * 20) 0 = 0x16
  · by_cases h2 : data.getD (i * 20 + 1) 0 = 17
    · simp [checkFrame, h1, h2, -List.getD_eq_getElem?_getD] at h
    · simp [checkFrame, h1, h2, -List.getD_eq_getElem?_getD] at h
      rw [← h]
      rfl
  · simp [checkFrame, h1, -List.getD_eq_getElem?_getD] at h
    rw [← h]
    rfl

lemma checkFrame_error_cases (data : List Nat) (i : Nat) (e : DecodeError)
    (h : checkFrame data i = Except.error e) :
    (e = DecodeError.frameTypeError (data.getD (i * 20) 0) ∧ data.getD (i * 20) 0 ≠ 0x16)
    ∨ (e = DecodeError.frameLengthError (data.getD (i * 20 + 1) 0)
        ∧ data.getD (i * 20 + 1) 0 ≠ 17 ∧ data.getD (i * 20) 0 = 0x16) := by
  by_cases h1 : data.getD (i * 20) 0 = 0x16
  · by_cases h2 : data.getD (i * 20 + 1) 0 = 17
    · simp [checkFrame, h1, h2, -List.getD_eq_getElem?_getD] at h
    · simp [checkFrame, h1, h2, -List.getD_eq_getElem?_getD] at h
      exact Or.inr ⟨h.symm, h2, h1⟩
  · simp [checkFrame, h1, -List.getD_eq_getElem?_getD] at h
    exact Or.inl ⟨h.symm, h1⟩

lemma checkFrame_error_of_bad (data : List Nat) (i : Nat) (hb : frameBad data i) :
    ∃ e, checkFrame data i = Except.error e := by
  by_cases h1 : data.getD (i * 20) 0 = 0x16
  · have h2 : data.getD (i * 20 + 1) 0 ≠ 17 := by
      rcases hb with hb | hb
      · exact absurd h1 hb
      · exact hb
    exact ⟨DecodeError.frameLengthError (data.getD (i * 20 + 1) 0), by simp [checkFrame, h1, h2, -List.getD_eq_getElem?_getD]⟩
  · exact ⟨DecodeError.frameTypeError (data.getD (i * 20) 0), by simp [checkFrame, h1, -List.getD_eq_getElem?_getD]⟩

lemma sumFrames_error_mem (data : List Nat) (is : List Nat) (e : DecodeError)
    (h : sumFrames data is = Except.error e) :
    ∃ i ∈ is, checkFrame data i = Except.error e := by
  induction is with
  | nil => simp [sumFrames] at h
  | cons i rest ih =>
    cases hc : checkFrame data i with
    | error e2 =>
      have hv : sumFrames data (i :: rest) = Except.error e2 := by simp [sumFrames, hc]
      rw [hv] at h
      simp at h
      subst h
      exact ⟨i, List.mem_cons_self i rest, hc⟩
    | ok v =>
      cases hr : sumFrames data rest with
      | error e2 =>
        have hv : sumFrames data (i :: rest) = Except.error e2 := by simp [sumFrames, hc, hr]
        rw [hv] at h
        simp at h
        subst h
        obtain ⟨j, hj, hje⟩ := ih hr
        exact ⟨j, List.mem_cons_of_mem i hj, hje⟩
      | ok s =>
        have hv : sumFrames data (i :: rest) = Except.ok (v + s) := by simp [sumFrames, hc, hr]
        rw [hv] at h
        simp at h

lemma sumFrames_error_exists (data : List Nat) (is : List Nat)
    (h : ∃ i ∈ is, ∃ e, checkFrame data i = Except.error e) :
    ∃ e2, sumFrames data is = Except.error e2 := by
  induction is with
  | nil => simp at h
  | cons i rest ih =>
    cases hc : checkFrame data i with
    | error e2 => exact ⟨e2, by simp [sumFrames, hc]⟩
    | ok v =>
      obtain ⟨j, hj, e, he⟩ := h
      rcases List.mem_cons.mp hj with rfl | hjr
      · rw [hc] at he
        simp at he
      · obtain ⟨e2, h2⟩ := ih ⟨j, hjr, e, he⟩
        exact ⟨e2, by simp [sumFrames, hc, h2]⟩

lemma decode_frameError_mem (data : List Nat) (e : DecodeError)
    (he : decode_sensor_data data = Except.error e) (hf : e.isFrame = true) :
    ∃ i ∈ List.range (data.length / 20), checkFrame data i = Except.error e := by
  simp only [decode_sensor_data] at he
  cases hs : sumFrames data (List.range (data.length / 20)) with
  | error e2 =>
    rw [hs] at he
    simp at he
    subst he
    exact sumFrames_error_mem data _ e2 hs
  | ok s =>
    rw [hs] at he
    by_cases hz : data.length / 20 = 0
    · simp [hz] at he
      subst he
      simp [DecodeError.isFrame] at hf
    · simp [hz] at he

lemma decode_frameError_of_bad (data : List Nat) (i : Nat)
    (hi : i < data.length / 20) (hb : frameBad data i) :
    ∃ e, decode_sensor_data data = Except.error e ∧ e.isFrame = true := by
  obtain ⟨e, he⟩ := checkFrame_error_of_bad data i hb
  obtain ⟨e2, h2⟩ := sumFrames_error_exists data _ ⟨i, List.mem_range.mpr hi, e, he⟩
  obtain ⟨j, hj, hje⟩ := sumFrames_error_mem data _ e2 h2
  refine ⟨e2, ?_, checkFrame_error_isFrame data j e2 hje⟩
  simp [decode_sensor_data, h2]

/- ===================== Claims about the decoder ===================== -/

/-- C1: for every byte buffer containing n at least 1 complete 20-byte frames,
each with byte 0 = 0x16 and byte 1 = 17, the decoder returns the
integer-truncated average over all n frames of byte[5]*256 + byte[6], and the
trailing bytes past the last complete frame do not affect the result. -/
theorem c1_decode_truncated_average (data : List Nat)
    (hn : 1 ≤ data.length / 20)
    (hvalid : ∀ i < data.length / 20,
      data.getD (i * 20) 0 = 0x16 ∧ data.getD (i * 20 + 1) 0 = 17) :
    decode_sensor_data data =
      Except.ok (((List.range (data.length / 20)).map (frameValue data)).sum
        / (data.length / 20))
    ∧ decode_sensor_data (data.take (20 * (data.length / 20))) = decode_sensor_data data := by
  constructor
  · have hok : ∀ i ∈ List.range (data.length / 20),
        checkFrame data i = Except.ok (frameValue data i) := by
      intro i hi
      have hlt := List.mem_range.mp hi
      exact checkFrame_eq_ok data i (hvalid i hlt).1 (hvalid i hlt).2
    have hne : ¬(data.length / 20 = 0) := by omega
    simp [decode_sensor_data, sumFrames_ok data _ hok, hne]
  · exact decode_take data

/-- Witness for C1: two valid frames with values 25 and 35 plus one trailing
byte decode to the truncated average 30. -/
theorem c1_decode_truncated_average_witness :
    1 ≤ (goodFrame ++ goodFrame35 ++ [0x16]).length / 20
    ∧ decode_sensor_data (goodFrame ++ goodFrame35 ++ [0x16]) = Except.ok 30 := by
  refine ⟨by decide, ?_⟩
  have h := (c1_decode_truncated_average (goodFrame ++ goodFrame35 ++ [0x16])
    (by decide) (by decide)).1
  rw [h]
  rfl

/-- C4: every buffer with zero complete 20-byte frames (length below 20,
including the empty buffer) fails to decode, with the EmptyInput
(division-by-zero) error, rather than decoding silently. -/
theorem c4_empty_input (data : List Nat) (h : data.length < 20) :
    decode_sensor_data data = Except.error DecodeError.emptyInput := by
  have h0 : data.length / 20 = 0 := Nat.div_eq_of_lt h
  simp [decode_sensor_data, h0, sumFrames]

/-- Witness for C4: the empty buffer fails with EmptyInput. -/
theorem c4_empty_input_witness :
    ([] : List Nat).length < 20
    ∧ decode_sensor_data [] = Except.error DecodeError.emptyInput :=
  ⟨by decide, c4_empty_input [] (by decide)⟩

/-- C8 counterexample: the decoder produces the identical FrameError value for
an offending frame at offset 0 (`cexBuf1`) and for one at offset 20
(`cexBuf2`), so the error does not identify the offending byte's offset. -/
theorem c8_frame_error_counterexample :
    decode_sensor_data cexBuf1 = Except.error (DecodeError.frameTypeError 0x15)
    ∧ decode_sensor_data cexBuf2 = Except.error (DecodeError.frameTypeError 0x15)
    ∧ cexBuf1.getD 0 0 = 0x15 ∧ cexBuf2.getD 0 0 = 0x16 ∧ cexBuf2.getD 20 0 = 0x15 :=
  ⟨rfl, rfl, rfl, rfl, rfl⟩

/-- C8 (amended): for every buffer with at least one complete 20-byte frame,
the decode fails with a FrameError exactly when some complete frame has
byte 0 different from 0x16 or byte 1 different from 17, and the FrameError
identifies the offending byte (but not its offset): a frame-type error
carries the offending byte 0 of some bad frame, a frame-length error carries
the offending byte 1 of some frame whose byte 0 was valid. -/
theorem c8_frame_error_amended (data : List Nat) (hn : 1 ≤ data.length / 20) :
    ((∃ i < data.length / 20, frameBad data i) ↔
      ∃ e, decode_sensor_data data = Except.error e ∧ e.isFrame = true)
    ∧ (∀ b, decode_sensor_data data = Except.error (DecodeError.frameTypeError b) →
        ∃ i < data.length / 20, data.getD (i * 20) 0 = b ∧ b ≠ 0x16)
    ∧ (∀ b, decode_sensor_data data = Except.error (DecodeError.frameLengthError b) →
        ∃ i < data.length / 20, data.getD (i * 20 + 1) 0 = b ∧ b ≠ 17) := by
  refine ⟨⟨?_, ?_⟩, ?_, ?_⟩
  · rintro ⟨i, hi, hb⟩
    exact decode_frameError_of_bad data i hi hb
  · rintro ⟨e, he, hf⟩
    obtain ⟨i, hi, hce⟩ := decode_frameError_mem data e he hf
    have hmem := List.mem_range.mp hi
    rcases checkFrame_error_cases data i e hce with ⟨_, hne⟩ | ⟨_, hne, _⟩
    · exact ⟨i, hmem, Or.inl hne⟩
    · exact ⟨i, hmem, Or.inr hne⟩
  · intro b he
    obtain ⟨i, hi, hce⟩ := decode_frameError_mem data (DecodeError.frameTypeError b) he rfl
    rcases checkFrame_error_cases data i _ hce with ⟨heq, hne⟩ | ⟨heq, _, _⟩
    · injection heq with hb
      subst hb
      exact ⟨i, List.mem_range.mp hi, rfl, hne⟩
    · exact absurd heq (by simp)
  · intro b he
    obtain ⟨i, hi, hce⟩ := decode_frameError_mem data (DecodeError.frameLengthError b) he rfl
    rcases checkFrame_error_cases data i _ hce with ⟨heq, _⟩ | ⟨heq, hne, _⟩
    · exact absurd heq (by simp)
    · injection heq with hb
      subst hb
      exact ⟨i, List.mem_range.mp hi, rfl, hne⟩

/-- Witness for C8 (amended): `cexBuf1` has one complete frame, its frame 0 is
bad, and indeed decoding fails with a frame error. -/
theorem c8_frame_error_amended_witness :
    1 ≤ cexBuf1.length / 20
    ∧ ∃ e, decode_sensor_data cexBuf1 = Except.error e ∧ e.isFrame = true :=
  ⟨by decide, (c8_frame_error_amended cexBuf1 (by decide)).1.mp ⟨0, by decide, by decide⟩⟩

/- ===================== Claims about the cycle aggregator ===================== -/

/-- C2: for every non-empty buffer of in-range samples and every current time,
the cycle flushes exactly when the buffer holds at least 7 samples or more
than 4 seconds passed since the last sample; on flush it produces the rounded
(1 decimal) average, reports the last sample's timestamp, and clears the
buffer; otherwise the buffer is left completely unchanged. -/
theorem c2_cycle_flush (buffer : List Sample) (now : Int) (last : Sample)
    (hrange : ∀ s ∈ buffer, 0 ≤ s.pm2_5 ∧ s.pm2_5 ≤ 1000)
    (hlast : buffer.getLast? = some last) :
    ((buffer.length ≥ 7 ∨ now - last.timestamp > 4) →
      publish_if_cycle_ended buffer now PublishOutcome.ok =
        ([], some ⟨pyRound1 (bufferSum buffer / (buffer.length : ℚ)), last.timestamp⟩, false))
    ∧ (¬(buffer.length ≥ 7 ∨ now - last.timestamp > 4) →
      publish_if_cycle_ended buffer now PublishOutcome.ok = (buffer, none, false)) := by
  constructor
  · intro hcond
    simp only [publish_if_cycle_ended, hlast, CYCLE_SAMPLES, CYCLE_TIMEOUT]
    rw [if_pos hcond]
  · intro hcond
    simp only [publish_if_cycle_ended, hlast, CYCLE_SAMPLES, CYCLE_TIMEOUT]
    rw [if_neg hcond]

/-- Witness for C2: three in-range samples averaging 20, flushed by timeout. -/
theorem c2_cycle_flush_witness :
    (∀ s ∈ buf3, 0 ≤ s.pm2_5 ∧ s.pm2_5 ≤ 1000)
    ∧ buf3.getLast? = some ⟨2, 30⟩
    ∧ (buf3.length ≥ 7 ∨ (7 : Int) - (2 : Int) > 4)
    ∧ publish_if_cycle_ended buf3 7 PublishOutcome.ok = ([], some ⟨20, 2⟩, false) := by
  refine ⟨by decide, by decide, by decide, ?_⟩
  have h := (c2_cycle_flush buf3 7 ⟨2, 30⟩ (by decide) (by decide)).1 (by decide)
  rw [h]
  norm_num [buf3, bufferSum, pyRound1, roundHalfEven]

/-- C5 counterexample: with the 3 in-range samples of `buf3` (last timestamp 2)
and now = 6, now is at least 4 seconds past the last sample, yet no flush
happens and the buffer is unchanged — against the claim that `now - last ≥ 4`
flushes. -/
theorem c5_timeout_counterexample :
    (6 : Int) - (2 : Int) ≥ 4
    ∧ publish_if_cycle_ended buf3 6 PublishOutcome.ok = (buf3, none, false) :=
  ⟨by decide, rfl⟩

/-- C5 (amended): for every buffer of 3 in-range samples, advancing now
strictly more than 4 seconds past the last sample's timestamp flushes with the
rounded average of those 3 samples; with now - last at most 4 seconds
(including exactly 4), no flush occurs and the buffer retains all 3 samples. -/
theorem c5_three_sample_timeout_amended (buffer : List Sample) (now : Int) (last : Sample)
    (hlen : buffer.length = 3)
    (hrange : ∀ s ∈ buffer, 0 ≤ s.pm2_5 ∧ s.pm2_5 ≤ 1000)
    (hlast : buffer.getLast? = some last) :
    (now - last.timestamp > 4 →
      publish_if_cycle_ended buffer now PublishOutcome.ok =
        ([], some ⟨pyRound1 (bufferSum buffer / 3), last.timestamp⟩, false))
    ∧ (now - last.timestamp ≤ 4 →
      publish_if_cycle_ended buffer now PublishOutcome.ok = (buffer, none, false)) := by
  constructor
  · intro h
    simp only [publish_if_cycle_ended, hlast, hlen, CYCLE_SAMPLES, CYCLE_TIMEOUT]
    rw [if_pos (Or.inr h)]
    norm_num
  · intro h
    have hno : ¬((3 : ℕ) ≥ 7 ∨ now - last.timestamp > 4) := by omega
    simp only [publish_if_cycle_ended, hlast, hlen, CYCLE_SAMPLES, CYCLE_TIMEOUT]
    rw [if_neg hno]

/-- Witness for C5 (amended): `buf3` flushes with average 20 at now = 7
(5 seconds past the last sample) and stays untouched at now = 6. -/
theorem c5_three_sample_timeout_amended_witness :
    buf3.length = 3 ∧ (7 : Int) - (2 : Int) > 4 ∧ (6 : Int) - (2 : Int) ≤ 4
    ∧ publish_if_cycle_ended buf3 7 PublishOutcome.ok = ([], some ⟨20, 2⟩, false)
    ∧ publish_if_cycle_ended buf3 6 PublishOutcome.ok = (buf3, none, false) := by
  refine ⟨by decide, by decide, by decide, ?_, ?_⟩
  · have h := (c5_three_sample_timeout_amended buf3 7 ⟨2, 30⟩ (by decide) (by decide)
      (by decide)).1 (by decide)
    rw [h]
    norm_num [buf3, bufferSum, pyRound1, roundHalfEven]
  · exact (c5_three_sample_timeout_amended buf3 6 ⟨2, 30⟩ (by decide) (by decide)
      (by decide)).2 (by decide)

/-- C9: offering a value below 0 or above 1000 leaves the cycle buffer
unchanged; offering an in-range value appends the sample at the end; and
offers preserve the invariant that every buffered value lies in [0, 1000]. -/
theorem c9_offer_range (buffer : List Sample) (t v : Int) :
    ((v < 0 ∨ v > 1000) → handle_sensor_data buffer t v = buffer)
    ∧ (0 ≤ v → v ≤ 1000 → handle_sensor_data buffer t v = buffer ++ [⟨t, v⟩])
    ∧ ((∀ s ∈ buffer, 0 ≤ s.pm2_5 ∧ s.pm2_5 ≤ 1000) →
        ∀ s ∈ handle_sensor_data buffer t v, 0 ≤ s.pm2_5 ∧ s.pm2_5 ≤ 1000) := by
  refine ⟨?_, ?_, ?_⟩
  · intro h
    have hno : ¬(0 ≤ v ∧ v ≤ 1000) := by omega
    simp [handle_sensor_data, hno]
  · intro h1 h2
    simp [handle_sensor_data, h1, h2]
  · intro hb s hs
    by_cases hv : 0 ≤ v ∧ v ≤ 1000
    · simp only [handle_sensor_data, if_pos hv, List.mem_append, List.mem_singleton] at hs
      rcases hs with hs | hs
      · exact hb s hs
      · subst hs
        exact ⟨hv.1, hv.2⟩
    · simp only [handle_sensor_data, if_neg hv] at hs
      exact hb s hs

/-- Witness for C9: -1 and 1001 are discarded from an empty buffer, 25 is
appended. -/
theorem c9_offer_range_witness :
    ((-1 : Int) < 0 ∨ (-1 : Int) > 1000)
    ∧ handle_sensor_data [] 5 (-1) = []
    ∧ handle_sensor_data [] 5 1001 = []
    ∧ handle_sensor_data [] 5 25 = [⟨5, 25⟩] := by
  refine ⟨by decide, (c9_offer_range [] 5 (-1)).1 (by decide), ?_, ?_⟩
  · exact (c9_offer_range [] 5 1001).1 (by decide)
  · exact (c9_offer_range [] 5 25).2.1 (by decide) (by decide)

/-- C10: when the flush condition holds and the publish raises, the cycle
buffer is left completely unchanged (it is cleared only after publish
returns), so the retained samples are exactly the ones averaged by the next
successful flush of that buffer. -/
theorem c10_raise_retains_buffer (buffer : List Sample) (now : Int) (last : Sample)
    (hlast : buffer.getLast? = some last)
    (hcond : buffer.length ≥ 7 ∨ now - last.timestamp > 4) :
    publish_if_cycle_ended buffer now PublishOutcome.raise = (buffer, none, true)
    ∧ publish_if_cycle_ended buffer now PublishOutcome.ok =
        ([], some ⟨pyRound1 (bufferSum buffer / (buffer.length : ℚ)), last.timestamp⟩, false) := by
  constructor
  · simp only [publish_if_cycle_ended, hlast, CYCLE_SAMPLES, CYCLE_TIMEOUT]
    rw [if_pos hcond]
  · simp only [publish_if_cycle_ended, hlast, CYCLE_SAMPLES, CYCLE_TIMEOUT]
    rw [if_pos hcond]

/-- Witness for C10: a raising publish leaves `buf3` untouched at now = 7. -/
theorem c10_raise_retains_buffer_witness :
    buf3.getLast? = some ⟨2, 30⟩
    ∧ (buf3.length ≥ 7 ∨ (7 : Int) - (2 : Int) > 4)
    ∧ publish_if_cycle_ended buf3 7 PublishOutcome.raise = (buf3, none, true) :=
  ⟨by decide, by decide,
    (c10_raise_retains_buffer buf3 7 ⟨2, 30⟩ (by decide) (by decide)).1⟩

/- ===================== Claims about the Homie model and the publisher ===================== -/

lemma property_init_spec (ptopic : String) (p : PropertyT) :
    PropertyT.init ptopic p = specPropertyAttrs ptopic p := rfl

lemma node_init_spec (ntopic : String) (n : NodeT) :
    NodeT.init ntopic n = specNodeAttrs ntopic n := by
  simp [NodeT.init, specNodeAttrs, property_init_spec, topic_name, set_attribute]

lemma device_init_spec (dtopic : String) (d : DeviceT) :
    DeviceT.init dtopic d = specAnnouncement dtopic d := by
  simp [DeviceT.init, specAnnouncement, node_init_spec, topic_name, set_attribute,
    DeviceState.INIT]

/-- C3: setting the device state to INIT publishes every attribute of every
descendant exactly once, in declared order — the list `specAnnouncement`
transcribed from the claim — while setting it to any other value publishes
exactly one attribute, `$state`, with the literal "ready" regardless of the
argument; in both cases the stored state afterwards equals the new state. -/
theorem c3_set_state (dtopic : String) (d : DeviceT) (new_state : String) :
    DeviceT.set_state dtopic d DeviceState.INIT = (specAnnouncement dtopic d, DeviceState.INIT)
    ∧ (new_state ≠ DeviceState.INIT →
        DeviceT.set_state dtopic d new_state
          = ([(dtopic ++ "/" ++ "$state", "ready")], new_state))
    ∧ (DeviceT.set_state dtopic d new_state).2 = new_state := by
  refine ⟨?_, ?_, ?_⟩
  · simp [DeviceT.set_state, device_init_spec]
  · intro h
    simp [DeviceT.set_state, h, set_attribute, DeviceState.READY]
  · by_cases h : new_state = DeviceState.INIT <;> simp [DeviceT.set_state, h]

/-- Witness for C3: setting the state of the concrete device to "ready"
publishes the single `$state` = "ready" attribute and stores "ready". -/
theorem c3_set_state_witness :
    ("ready" : String) ≠ DeviceState.INIT
    ∧ DeviceT.set_state "homie/vind" vindDevice "ready"
        = ([("homie/vind/$state", "ready")], "ready") := by
  refine ⟨by decide, ?_⟩
  have h := (c3_set_state "homie/vind" vindDevice "ready").2.1 (by decide)
  rw [h]
  rfl

lemma slashJoin_cons (r i : String) (rest : List String) :
    slashJoin ((r ++ "/" ++ i) :: rest) = r ++ "/" ++ slashJoin (i :: rest) := by
  cases rest with
  | nil => rfl
  | cons y t => simp [slashJoin, String.append_assoc]

/-- C6: the topic path of every entity equals the slash-joined concatenation
of the ids from the root to that entity, `set_attribute` publishes to
path ++ "/" ++ name, and `set_value` publishes to the bare path. -/
theorem c6_topic_path (root : String) (ids : List String) (t n v : String) :
    entity_topic root ids = slashJoin (root :: ids)
    ∧ set_attribute t n v = (t ++ "/" ++ n, v)
    ∧ set_value t v = (t, v) := by
  refine ⟨?_, rfl, rfl⟩
  induction ids generalizing root with
  | nil => rfl
  | cons i rest ih =>
    have h := ih (topic_name (some root) i)
    simp only [entity_topic] at h ⊢
    rw [h, topic_name, slashJoin_cons]
    rfl

/-- C7: a publish with no usable property reference attempts exactly one
reconnect; when the reconnect fails, publish returns normally, publishing
nothing and raising nothing, and leaves the state so that the next publish
attempts the reconnect again; when a property reference exists and its
set_value fails, the failure surfaces as a ConnectionError to the caller. -/
theorem c7_publish_reconnect (st : PublisherState) (msg : String)
    (co : ConnectOutcome) (sv : Bool) :
    (st.property = none →
      (Publisher.publish st msg co sv).2.connectAttempts = 1
      ∧ (co = ConnectOutcome.failure →
          Publisher.publish st msg co sv = (⟨none⟩, ⟨1, none, false⟩)
          ∧ ∀ msg2 co2 sv2,
            (Publisher.publish (Publisher.publish st msg co sv).1
              msg2 co2 sv2).2.connectAttempts = 1))
    ∧ (∀ p, st.property = some p → sv = false →
        (Publisher.publish st msg co sv).2.connectionError = true
        ∧ (Publisher.publish st msg co sv).2.published = none) := by
  constructor
  · intro hnone
    constructor
    · cases co <;> cases sv <;> simp [Publisher.publish, connect, hnone]
    · intro hco
      subst hco
      constructor
      · simp [Publisher.publish, connect, hnone]
      · intro msg2 co2 sv2
        have hres : (Publisher.publish st msg ConnectOutcome.failure sv).1
            = PublisherState.mk none := by
          simp [Publisher.publish, connect, hnone]
        rw [hres]
        cases co2 <;> cases sv2 <;> simp [Publisher.publish, connect]
  · intro p hp hsv
    subst hsv
    simp [Publisher.publish, hp]

/-- Witness for C7: a failing reconnect leaves publish silent with one
attempt, and a failing set_value on a connected publisher raises. -/
theorem c7_publish_reconnect_witness :
    (PublisherState.mk none).property = none
    ∧ Publisher.publish ⟨none⟩ "20.0" ConnectOutcome.failure true = (⟨none⟩, ⟨1, none, false⟩)
    ∧ (PublisherState.mk (some "p")).property = some "p"
    ∧ (Publisher.publish ⟨some "p"⟩ "20.0" ConnectOutcome.failure false).2.connectionError
        = true := by
  refine ⟨rfl, ?_, rfl, ?_⟩
  · exact (((c7_publish_reconnect ⟨none⟩ "20.0" ConnectOutcome.failure true).1 rfl).2 rfl).1
  · exact ((c7_publish_reconnect ⟨some "p"⟩ "20.0" ConnectOutcome.failure false).2
      "p" rfl rfl).1
